import Mathlib

/-!
Shallow embedding of the Auto-Glyph pipeline (src/autoglyph.py): the glyph
lexicon, the response validator, the glyph assigner, and the per-note
processing loop, together with proofs of the specified properties.

Conventions of the embedding:
* Python lists and dicts become Lean lists and association lists
  (dict iteration order is insertion order, matched by the list order).
* Explicit character-list functions model Python string
  operations (strip, split, slicing) so the kernel can evaluate them.
* Fallible external collaborators (the language model, YAML
  serialization, the file system) are explicit oracle parameters; an
  exception becomes an `Except.error` or an explicit failure outcome.
-/

set_option linter.unusedVariables false

/-- Definition of one glyph of the lexicon: display name, meanings,
archetypes and the permission flag (the per-symbol dict of
`GLYPH_LEXICON` in the source). -/
structure GlyphDef where
  name : String
  meanings : List String
  archetypes : List String
  requires_permission : Bool
deriving DecidableEq, Repr

/-- The table `GLYPH_LEXICON` from the source, as an association list in the order
of the Python dict literal. The symbol strings are the exact strings of
the source file (written here with unicode escapes; the source file
stores mojibake-encoded symbols, which changes nothing structural). -/
def GLYPH_LEXICON : List (String × GlyphDef) := [
  ("âŸ",
   { name := "Paradox Glyph",
     meanings := ["paradox", "complex systems", "collapse", "fragmentation", "ambiguous truth"],
     archetypes := ["The Trickster", "The Puzzle", "The Labyrinth"],
     requires_permission := false }),
  ("âš¯",
   { name := "Dual Witness Glyph",
     meanings := ["witnessing", "mirroring", "trauma", "grief", "duality", "entanglement"],
     archetypes := ["The Twins", "The Mirror", "The Echo"],
     requires_permission := false }),
  ("âˆ·",
   { name := "Recursion Glyph",
     meanings := ["loops", "recursion", "patterns", "iteration", "self-reference"],
     archetypes := ["The Ouroboros", "The Fractal", "The Algorithm"],
     requires_permission := false }),
  ("âˆž",
   { name := "Eternal Glyph",
     meanings := ["memory", "eternity", "cycles", "immortality", "permanence"],
     archetypes := ["The Ancient", "The Monument", "The Timeless"],
     requires_permission := false }),
  ("ðŸœ",
   { name := "Breath Glyph",
     meanings := ["breath", "spirit", "transformation", "air", "alchemy"],
     archetypes := ["The Wind", "The Phoenix", "The Alchemist"],
     requires_permission := false }),
  ("â§–",
   { name := "Temporal Fold",
     meanings := ["time dilation", "deja vu", "temporal distortion"],
     archetypes := ["The Timekeeper", "The Prophet"],
     requires_permission := true }),
  ("â‚",
   { name := "Threshold Marker",
     meanings := ["initiation", "portals", "boundary crossing"],
     archetypes := ["The Gatekeeper", "The Wanderer"],
     requires_permission := true })]

/-- Model of Python `str.strip()`: drop whitespace characters from both
ends of the string. Implemented on the character list so that it is
computable by the kernel. -/
def py_strip (s : String) : String :=
  String.mk (((s.data.dropWhile Char.isWhitespace).reverse.dropWhile Char.isWhitespace).reverse)

/-- Model of Python `str.split(",")`: split at every comma, keeping
empty parts; the empty string yields one empty part. -/
def py_split_commas (s : String) : List String :=
  (s.data.foldr
    (fun c acc =>
      match acc with
      | cur :: rest => if c == ',' then [] :: cur :: rest else (c :: cur) :: rest
      | [] => [[c]])
    [[]]).map String.mk

/-- Model of the Python slice `s[:n]`: the first `n` characters. -/
def py_take (s : String) (n : Nat) : String :=
  String.mk (s.data.take n)

/-- Model of Python `len(s)` for strings: the number of characters. -/
def py_len (s : String) : Nat :=
  s.data.length

/-- Membership of a symbol among the lexicon keys
(Python: `g.strip() in GLYPH_LEXICON`). -/
def lexicon_contains (g : String) : Bool :=
  GLYPH_LEXICON.any (fun p => p.1 == g)

/-- The set of permission-gated symbols (the set comprehension
`permission_glyphs` inside `validate_glyphstream`). -/
def permission_glyphs : List String :=
  (GLYPH_LEXICON.filter (fun p => p.2.requires_permission)).map (fun p => p.1)

/-- First line of `validate_glyphstream`: strip each token and keep, in
order and without deduplication, those that are lexicon symbols. -/
def valid_glyphs_of (glyphs : List String) : List String :=
  (glyphs.map py_strip).filter lexicon_contains

/-- Embedding of `validate_glyphstream` from the source: filter to valid symbols;
for shared streams return empty when no valid symbol is
permission-gated; truncate to 3 (personal) or 7 (shared). -/
def validate_glyphstream (glyphs : List String) (is_personal : Bool) : List String :=
  if !is_personal && !((valid_glyphs_of glyphs).any (fun g => permission_glyphs.contains g)) then
    []
  else
    (valid_glyphs_of glyphs).take (if is_personal then 3 else 7)

/-- Embedding of `generate_glyph_prompt` from the source. The parameter is unused in
the body, exactly as in the source (the rendered rules do not vary with
the stream kind). -/
def generate_glyph_prompt (is_personal_stream : Bool) : String :=
  let glyph_descriptions := GLYPH_LEXICON.map (fun p =>
    let desc := p.1 ++ " (" ++ p.2.name ++ "): " ++ String.intercalate ", " p.2.meanings
    if p.2.requires_permission then desc ++ " [REQUIRES PERMISSION]" else desc)
  let rules := "Rules:\n- Max 3 glyphs for personal streams\n- Max 7 glyphs for shared experiences\n- Permission glyphs (â§–, â‚) required for shared streams"
  "Analyze the text and select the most representative glyphs:\n    \nAvailable Glyphs:\n"
    ++ String.intercalate " | " glyph_descriptions
    ++ "\n\n" ++ rules
    ++ "\n\nReturn ONLY the chosen glyphs as comma-separated characters."

/-- Embedding of `llm_assign_glyphs`. The model completion interface is
the oracle `llm` (system message, user message to completion text, or
the exception it raised). The second component of the result counts the
model calls made by this invocation (0 or 1): the source makes exactly
one call inside the try block and catches every exception from it,
returning the empty list without retrying. -/
def llm_assign_glyphs (llm : String → String → Except String String)
    (text : String) (is_personal_stream : Bool) : List String × Nat :=
  if py_len text < 50 then ([], 0)
  else
    match llm (generate_glyph_prompt is_personal_stream)
        ("Text to analyze:\n\n" ++ py_take text 3000) with
    | Except.error _ => ([], 1)
    | Except.ok content =>
        (validate_glyphstream (py_split_commas (py_strip content)) is_personal_stream, 1)

/-- Metadata values the embedding tracks: strings, lists of strings,
the nested glyph-definition mapping written by the updater, and a
stand-in for any other YAML value the notes may carry. -/
inductive MetaValue where
  | str (s : String)
  | strList (l : List String)
  | glyphMeta (m : List (String × GlyphDef))
  | other (tag : String)
deriving DecidableEq, Repr

/-- A note header is a mapping from string keys to values, in insertion
order, as a Python dict.  -/
abbrev Metadata := List (String × MetaValue)

/-- Is the character list `pre` a leading segment of `l`? -/
def chars_lead : List Char → List Char → Bool
  | [], _ => true
  | _ :: _, [] => false
  | a :: as, b :: bs => a == b && chars_lead as bs

/-- Model of the Python substring test `needle in haystack` on two
strings. -/
def str_contains_sub (haystack needle : String) : Bool :=
  (List.range (haystack.data.length + 1)).any
    (fun i => chars_lead needle.data (haystack.data.drop i))

/-- Model of the Python expression `needle in value` for each metadata
value shape: substring test on a string, element test on a list, key
test on a dict; any other value raises a TypeError. -/
def py_in (needle : String) : MetaValue → Except String Bool
  | MetaValue.str s => Except.ok (str_contains_sub s needle)
  | MetaValue.strList l => Except.ok (l.contains needle)
  | MetaValue.glyphMeta m => Except.ok (m.any (fun p => p.1 == needle))
  | MetaValue.other _ => Except.error "TypeError: argument is not iterable"

/-- Line 220 of the source: `is_personal = "shared_experience" not in
post.metadata.get("tags", [])`, applying Python membership to the raw
tags value; a TypeError propagates to the per-note exception handler. -/
def derive_is_personal (metadata : Metadata) : Except String Bool :=
  match py_in "shared_experience" ((List.lookup "tags" metadata).getD (MetaValue.strList [])) with
  | Except.error e => Except.error e
  | Except.ok b => Except.ok (!b)

/-- One audit log line as `log_assignment` writes it (the timestamp and
run id fields are wall-clock values and are not tracked). -/
structure LogEntry where
  file : String
  action : String
  glyphs : List String
  error : Option String
deriving DecidableEq, Repr

/-- Embedding of `log_assignment` from the source: append one entry to the JSON
Lines audit log (the log file is opened in append mode, so the existing
lines are untouched). -/
def log_assignment (log : List LogEntry) (filename : String) (glyphs : List String)
    (action : String) (error : Option String) : List LogEntry :=
  log ++ [{ file := filename, action := action, glyphs := glyphs, error := error }]

/-- Outcome of one attempt of `write_obsidian_file`, abstracting its
fallible external steps. `success` carries the text the YAML dump of
the prepared metadata produced. `prepError` is an exception raised
while preparing `safe_metadata` (before the file is opened); and
`openError` is a failure of `open(file_path, mode)` itself; in both
cases the file is untouched. `dumpError` is an exception raised by the
streaming `yaml.dump` after `open` has already truncated the file and
the start marker has been written; it carries whatever text the dump
had emitted before raising. -/
inductive WriteAttempt where
  | success (yaml : String)
  | prepError (msg : String)
  | openError (msg : String)
  | dumpError (emitted : String)
deriving DecidableEq, Repr

/-- Set the content of one file of the modelled vault. -/
def fs_set (fs : List (String × String)) (path : String) (content : String) :
    List (String × String) :=
  if fs.any (fun p => p.1 == path) then
    fs.map (fun p => if p.1 == path then (path, content) else p)
  else fs ++ [(path, content)]

/-- Embedding of `write_obsidian_file`: on success the file holds the
start marker, the YAML dump of the metadata, the end marker, a blank
line and the stripped body, and the function returns `true`; every
exception is caught and the function returns `false`, with the on-disk
effect of `attempt` as described on `WriteAttempt`. -/
def write_obsidian_file (attempt : WriteAttempt) (fs : List (String × String))
    (file_path : String) (content : String) : Bool × List (String × String) :=
  match attempt with
  | WriteAttempt.prepError _ => (false, fs)
  | WriteAttempt.openError _ => (false, fs)
  | WriteAttempt.dumpError emitted =>
      (false, fs_set fs file_path ("---\n" ++ emitted))
  | WriteAttempt.success yaml =>
      (true, fs_set fs file_path ("---\n" ++ yaml ++ "---\n\n" ++ py_strip content))

/-- The dict comprehension of lines 225 to 232 of the source: for each
assigned glyph, its full lexicon record keyed by symbol. Duplicate
glyphs collapse to one key, as in a Python dict (the looked-up value is
identical, so keeping the first insertion is exact). Every validated
glyph is a lexicon key, so the fallback branch is unreachable. -/
def build_glyph_metadata (glyphstream : List String) : List (String × GlyphDef) :=
  glyphstream.foldl
    (fun acc glyph =>
      if acc.any (fun p => p.1 == glyph) then acc
      else
        match List.lookup glyph GLYPH_LEXICON with
        | some d => acc ++ [(glyph, d)]
        | none => acc)
    []

/-- Python `dict.update` for one key: replace the value in place when
the key exists, else append the new key at the end. -/
def meta_update (m : Metadata) (k : String) (v : MetaValue) : Metadata :=
  if m.any (fun p => p.1 == k) then
    m.map (fun p => if p.1 == k then (k, v) else p)
  else m ++ [(k, v)]

/-- The merged metadata written for an updated note (lines 235 to 240
of the source): the four new keys in update order. -/
def enrich_metadata (metadata : Metadata) (glyphstream : List String)
    (is_personal : Bool) (now : String) : Metadata :=
  meta_update (meta_update (meta_update (meta_update metadata
    "glyphstream" (MetaValue.strList glyphstream))
    "glyph_metadata" (MetaValue.glyphMeta (build_glyph_metadata glyphstream)))
    "last_processed" (MetaValue.str now))
    "stream_type" (MetaValue.str (if is_personal then "personal" else "shared"))

/-- One markdown file of the vault as the main loop sees it: its file
name and the result of `frontmatter.load` on its current content (the
parser is an external collaborator; the error case is the exception it
raised, handled by the per-note handler). -/
structure VaultNote where
  name : String
  parse : Except String (Metadata × String)

/-- External collaborators of one run: the model completion interface,
the oracle fixing the outcome of each write attempt (by file name and
metadata to be written), and the wall clock. -/
structure Env where
  llm : String → String → Except String String
  write_attempt : String → Metadata → WriteAttempt
  now : String

/-- State threaded through the main loop: on-disk note contents, the
audit log, and the number of model calls made so far. -/
structure RunState where
  files : List (String × String)
  log : List LogEntry
  llm_calls : Nat
deriving DecidableEq, Repr

/-- The body of the per-file loop of `process_vault` (lines 208 to 257
of the source): handle a parse exception as ERROR; skip a note already
carrying a `glyphstream` key; derive the stream kind (a TypeError there
is caught by the same per-note handler); assign glyphs; then either
record NO_MATCH, or enrich the metadata, attempt the write and record
UPDATED or WRITE_FAILED. -/
def process_note (env : Env) (st : RunState) (note : VaultNote) : RunState :=
  match note.parse with
  | Except.error e =>
      { st with log := log_assignment st.log note.name [] "ERROR" (some e) }
  | Except.ok (metadata, content) =>
      if metadata.any (fun p => p.1 == "glyphstream") then
        { st with log := log_assignment st.log note.name [] "SKIPPED" none }
      else
        match derive_is_personal metadata with
        | Except.error e =>
            { st with log := log_assignment st.log note.name [] "ERROR" (some e) }
        | Except.ok is_personal =>
            let res := llm_assign_glyphs env.llm content is_personal
            let glyphstream := res.1
            let st1 : RunState := { st with llm_calls := st.llm_calls + res.2 }
            if glyphstream.isEmpty then
              { st1 with log := log_assignment st1.log note.name [] "NO_MATCH" none }
            else
              let newMeta := enrich_metadata metadata glyphstream is_personal env.now
              let wr := write_obsidian_file (env.write_attempt note.name newMeta)
                st1.files note.name content
              if wr.1 then
                { st1 with
                  files := wr.2
                  log := log_assignment st1.log note.name glyphstream "UPDATED" none }
              else
                { st1 with
                  files := wr.2
                  log := log_assignment st1.log note.name glyphstream "WRITE_FAILED" none }

/-- The main loop of `process_vault`: each markdown file of the vault
is fully processed, in traversal order, before the next one. The
initial state holds the on-disk contents and the pre-existing audit
lines (the log file is created empty when absent, so an absent log is
the empty list). -/
def process_vault (env : Env) (init : RunState) (notes : List VaultNote) : RunState :=
  notes.foldl (process_note env) init

/-! ## Helper lemmas -/

lemma validate_sublist_valid (glyphs : List String) (k : Bool) :
    (validate_glyphstream glyphs k).Sublist (valid_glyphs_of glyphs) := by
  unfold validate_glyphstream
  split
  · exact List.nil_sublist _
  · exact List.take_sublist _ _

lemma mem_validate (glyphs : List String) (k : Bool) (g : String)
    (hg : g ∈ validate_glyphstream glyphs k) : g ∈ valid_glyphs_of glyphs :=
  (validate_sublist_valid glyphs k).subset hg

lemma mem_valid_lexicon (glyphs : List String) (g : String)
    (hg : g ∈ valid_glyphs_of glyphs) : lexicon_contains g = true :=
  List.of_mem_filter hg

/-! ## Claims about the response validator -/

/-- C3, counterexample: for the Shared kind the validator is not simply
filter-then-truncate. On the single non-permission token the filtered
list truncated to 7 is that token, but the validator returns empty. -/
theorem C3_counterexample :
    validate_glyphstream ["âŸ"] false = [] ∧
    (valid_glyphs_of ["âŸ"]).take 7 = ["âŸ"] := by decide

/-- C3, amended: the validator strips each token and keeps exactly the
lexicon symbols in order without deduplication; for Personal it
truncates the filtered list to 3; for Shared it truncates to 7 unless
no filtered token is permission-gated, in which case it returns empty;
hence the output length is at most 3 (Personal) or 7 (Shared) and every
output symbol exists in the lexicon. -/
theorem C3_validator_characterization (glyphs : List String) :
    validate_glyphstream glyphs true = (valid_glyphs_of glyphs).take 3 ∧
    validate_glyphstream glyphs false =
      (if (valid_glyphs_of glyphs).any (fun g => permission_glyphs.contains g) then
        (valid_glyphs_of glyphs).take 7 else []) ∧
    valid_glyphs_of glyphs = (glyphs.map py_strip).filter lexicon_contains ∧
    (∀ k : Bool, (validate_glyphstream glyphs k).length ≤ if k then 3 else 7) ∧
    (∀ (k : Bool) (g : String), g ∈ validate_glyphstream glyphs k →
      lexicon_contains g = true) := by
  refine ⟨rfl, ?_, rfl, ?_, ?_⟩
  · cases hany : (valid_glyphs_of glyphs).any (fun g => permission_glyphs.contains g) with
    | false => simp only [validate_glyphstream, hany]; rfl
    | true => simp only [validate_glyphstream, hany]; rfl
  · intro k
    cases k with
    | true => exact List.length_take_le _ _
    | false =>
      unfold validate_glyphstream
      split
      · exact Nat.zero_le _
      · exact List.length_take_le _ _
  · intro k g hg
    exact mem_valid_lexicon _ _ (mem_validate _ _ _ hg)

/-- C3, witness: the lexicon-membership conclusion applied to a
concrete validated glyph. -/
theorem C3_witness : lexicon_contains "âŸ" = true :=
  (C3_validator_characterization ["âŸ"]).2.2.2.2 true "âŸ" (by decide)

/-- C1, counterexample: the permission gate runs before truncation, so
with duplicated non-permission tokens a Shared stream can come out
non-empty yet contain no permission-gated glyph. -/
theorem C1_counterexample :
    validate_glyphstream
      ["âŸ", "âŸ", "âŸ", "âŸ", "âŸ", "âŸ", "âŸ", "â§–"] false
      = ["âŸ", "âŸ", "âŸ", "âŸ", "âŸ", "âŸ", "âŸ"] ∧
    (["âŸ", "âŸ", "âŸ", "âŸ", "âŸ", "âŸ", "âŸ"] : List String).all
      (fun g => !(permission_glyphs.contains g)) = true := by decide

/-- C1, amended: for the Shared kind the returned stream is either
empty or the filtered valid token list before truncation contains at
least one permission-gated glyph; the truncated output itself can lack
every permission-gated glyph when duplicates push them past the first
seven positions. -/
theorem C1_shared_gate_pre_truncation (glyphs : List String) :
    validate_glyphstream glyphs false = [] ∨
    (valid_glyphs_of glyphs).any (fun g => permission_glyphs.contains g) = true := by
  cases hany : (valid_glyphs_of glyphs).any (fun g => permission_glyphs.contains g) with
  | true => exact Or.inr rfl
  | false =>
    refine Or.inl ?_
    simp only [validate_glyphstream, hany]
    rfl

/-- C4: for the Shared kind, when none of the filtered valid tokens is
permission-gated the validator returns exactly the empty stream. -/
theorem C4_shared_all_or_nothing (glyphs : List String)
    (h : (valid_glyphs_of glyphs).all (fun g => !(permission_glyphs.contains g)) = true) :
    validate_glyphstream glyphs false = [] := by
  have hany : (valid_glyphs_of glyphs).any (fun g => permission_glyphs.contains g) = false := by
    cases hc : (valid_glyphs_of glyphs).any (fun g => permission_glyphs.contains g) with
    | false => rfl
    | true =>
      exfalso
      rw [List.any_eq_true] at hc
      obtain ⟨x, hx, hpx⟩ := hc
      have hall := List.all_eq_true.mp h x hx
      rw [hpx] at hall
      exact absurd hall (by decide)
  simp only [validate_glyphstream, hany]
  rfl

/-- C4, witness: the two non-permission tokens named by the spec test
yield the empty Shared stream. -/
theorem C4_witness : validate_glyphstream ["âŸ", "âˆ·"] false = [] :=
  C4_shared_all_or_nothing _ (by decide)

/-- C5, counterexample: a repeated token is kept twice, so the output
is not a sequence of distinct symbols. -/
theorem C5_counterexample :
    validate_glyphstream ["âŸ", "âŸ"] true = ["âŸ", "âŸ"] ∧
    ¬ (validate_glyphstream ["âŸ", "âŸ"] true).Nodup := by
  exact ⟨by decide, by decide⟩

/-- C5, amended: every stream the validator produces is an ordered
selection of the stripped input tokens whose members are all lexicon
symbols, but repeated tokens are not deduplicated, so a symbol can
appear more than once. -/
theorem C5_stream_sublist_lexicon (glyphs : List String) (k : Bool) :
    (validate_glyphstream glyphs k).Sublist (glyphs.map py_strip) ∧
    ∀ g ∈ validate_glyphstream glyphs k, lexicon_contains g = true := by
  constructor
  · exact (validate_sublist_valid glyphs k).trans (List.filter_sublist _)
  · intro g hg
    exact mem_valid_lexicon _ _ (mem_validate _ _ _ hg)

/-- C5, witness: the membership conclusion applied at a concrete
validated glyph. -/
theorem C5_witness : lexicon_contains "âš¯" = true :=
  (C5_stream_sublist_lexicon ["âš¯"] true).2 "âš¯" (by decide)

/-! ## Claims about stream-kind derivation -/

/-- C10: stream-kind derivation applies Python membership to the raw
tags value: a string tags value classifies the note as Shared exactly
when the literal occurs as a substring (in particular the tags string
my_shared_experiences classifies as Shared), and a note without a tags
key is always Personal. -/
theorem C10_stream_kind_membership :
    (∀ s : String, derive_is_personal [("tags", MetaValue.str s)]
        = Except.ok (!(str_contains_sub s "shared_experience"))) ∧
    derive_is_personal [("tags", MetaValue.str "my_shared_experiences")]
        = Except.ok false ∧
    (∀ m : Metadata, List.lookup "tags" m = none →
      derive_is_personal m = Except.ok true) := by
  refine ⟨fun s => rfl, rfl, fun m hm => ?_⟩
  unfold derive_is_personal
  rw [hm]
  rfl

/-- C10, witness: a header without a tags key is Personal and the
substring example is Shared. -/
theorem C10_witness :
    derive_is_personal [("title", MetaValue.str "x")] = Except.ok true ∧
    derive_is_personal [("tags", MetaValue.str "my_shared_experiences")]
        = Except.ok false :=
  ⟨C10_stream_kind_membership.2.2 _ rfl, C10_stream_kind_membership.2.1⟩

/-! ## Claims about the glyph assigner -/

/-- C7: a failure raised by the model completion interface is caught by
the glyph assigner and converted to the empty stream; exactly one model
call is made (no retry) and the assigner returns normally (nothing is
propagated). -/
theorem C7_model_failure_degrades (llm : String → String → Except String String)
    (text : String) (k : Bool) (msg : String)
    (hlen : 50 ≤ py_len text)
    (hfail : llm (generate_glyph_prompt k)
        ("Text to analyze:\n\n" ++ py_take text 3000) = Except.error msg) :
    llm_assign_glyphs llm text k = ([], 1) := by
  unfold llm_assign_glyphs
  rw [if_neg (by omega), hfail]

/-- C7, witness: a model client that always raises yields the empty
stream after one call. -/
theorem C7_witness :
    llm_assign_glyphs (fun _ _ => Except.error "timeout")
      "This note body is long enough to trigger a model call today." true
      = ([], 1) :=
  C7_model_failure_degrades _ _ true "timeout" (by decide) rfl

/-! ## Claims about the note processor -/

/-- C6: a note whose body is shorter than 50 characters is returned as
the empty stream by the assigner with no model call made (for either
stream kind), and the processor logs its action as NO_MATCH with the
on-disk files and the model-call count unchanged. -/
theorem C6_short_note_no_model_call (env : Env) (st : RunState) (note : VaultNote)
    (metadata : Metadata) (content : String) (b : Bool)
    (hparse : note.parse = Except.ok (metadata, content))
    (hkey : metadata.any (fun p => p.1 == "glyphstream") = false)
    (hb : derive_is_personal metadata = Except.ok b)
    (hshort : py_len content < 50) :
    (∀ k : Bool, llm_assign_glyphs env.llm content k = ([], 0)) ∧
    process_note env st note =
      { st with log := log_assignment st.log note.name [] "NO_MATCH" none } := by
  have hassign : ∀ k : Bool, llm_assign_glyphs env.llm content k = ([], 0) := by
    intro k
    unfold llm_assign_glyphs
    rw [if_pos hshort]
  refine ⟨hassign, ?_⟩
  unfold process_note
  rw [hparse]
  simp only [hkey, hb, hassign]
  rfl

/-- C6, witness: a 4-character note ends as NO_MATCH with zero model
calls. -/
theorem C6_witness :
    process_note
      { llm := fun _ _ => Except.ok "âŸ"
        write_attempt := fun _ _ => WriteAttempt.success ""
        now := "2026-01-01T00:00:00" }
      { files := [("short.md", "tiny")], log := [], llm_calls := 0 }
      { name := "short.md", parse := Except.ok ([], "tiny") }
      = { files := [("short.md", "tiny")]
          log := [{ file := "short.md", action := "NO_MATCH", glyphs := [], error := none }]
          llm_calls := 0 } :=
  (C6_short_note_no_model_call _ _ _ [] "tiny" true rfl rfl rfl (by decide)).2

/-- C8: a note whose metadata already carries a glyphstream key is
skipped: no model call, no write, files unchanged, and one SKIPPED
entry with the empty glyph list. -/
theorem C8_already_processed_skipped (env : Env) (st : RunState) (note : VaultNote)
    (metadata : Metadata) (content : String)
    (hparse : note.parse = Except.ok (metadata, content))
    (hkey : metadata.any (fun p => p.1 == "glyphstream") = true) :
    process_note env st note =
      { st with log := log_assignment st.log note.name [] "SKIPPED" none } := by
  unfold process_note
  rw [hparse]
  simp only [hkey]
  rfl

/-- C8, witness: a note already carrying the key is skipped with its
content untouched. -/
theorem C8_witness :
    process_note
      { llm := fun _ _ => Except.ok "âŸ"
        write_attempt := fun _ _ => WriteAttempt.success ""
        now := "t" }
      { files := [("done.md", "old content")], log := [], llm_calls := 0 }
      { name := "done.md"
        parse := Except.ok ([("glyphstream", MetaValue.strList ["âŸ"])],
          "a body long enough that a model call would otherwise happen here") }
      = { files := [("done.md", "old content")]
          log := [{ file := "done.md", action := "SKIPPED", glyphs := [], error := none }]
          llm_calls := 0 } :=
  C8_already_processed_skipped _ _ _ _ _ rfl rfl

lemma process_note_appends_one (env : Env) (st : RunState) (note : VaultNote) :
    ∃ e : LogEntry, (process_note env st note).log = st.log ++ [e] := by
  unfold process_note
  dsimp only
  repeat' split
  all_goals exact ⟨_, rfl⟩

/-- C9: one run appends exactly one audit entry per note it visits and
never mutates, truncates or deletes the existing log lines: the final
log is the initial log followed by one new entry per note. -/
theorem C9_append_only_one_entry_per_note (env : Env) (init : RunState)
    (notes : List VaultNote) :
    ∃ entries : List LogEntry,
      (process_vault env init notes).log = init.log ++ entries ∧
      entries.length = notes.length := by
  induction notes generalizing init with
  | nil => exact ⟨[], by simp [process_vault], rfl⟩
  | cons n ns ih =>
    obtain ⟨e, he⟩ := process_note_appends_one env init n
    obtain ⟨es, hes, hlen⟩ := ih (process_note env init n)
    refine ⟨e :: es, ?_, by simp [hlen]⟩
    have hstep : process_vault env init (n :: ns)
        = process_vault env (process_note env init n) ns := rfl
    rw [hstep, hes, he]
    simp

/-- C2, counterexample: an exception raised by the streaming YAML dump
after the file has been opened for writing leaves the note truncated to
the start marker, not byte-identical to its previous content, even
though the WRITE_FAILED entry is recorded as described. -/
theorem C2_counterexample :
    process_vault
      { llm := fun _ _ => Except.ok "âŸ"
        write_attempt := fun _ _ => WriteAttempt.dumpError ""
        now := "t" }
      { files := [("a.md", "This body is surely long enough to be classified by the model.")]
        log := []
        llm_calls := 0 }
      [{ name := "a.md"
         parse := Except.ok ([],
           "This body is surely long enough to be classified by the model.") }]
      = { files := [("a.md", "---\n")]
          log := [{ file := "a.md", action := "WRITE_FAILED", glyphs := ["âŸ"], error := none }]
          llm_calls := 1 } ∧
    "---\n" ≠ "This body is surely long enough to be classified by the model." :=
  ⟨by decide, by decide⟩

/-- C2, amended: when persisting an updated note fails, exactly one
WRITE_FAILED entry carrying the attempted glyph list is appended and
processing proceeds to the subsequent notes; the on-disk content is
unchanged when the exception occurs before the output file is opened
(metadata preparation or the open call itself), whereas an exception
during the streamed YAML dump can leave the file truncated, because the
note is rewritten in place. -/
theorem C2_write_failure_logged_once (env : Env) (st : RunState) (note : VaultNote)
    (metadata : Metadata) (content : String) (rest : List VaultNote)
    (gs : List String) (is_personal : Bool) (msg : String)
    (hparse : note.parse = Except.ok (metadata, content))
    (hkey : metadata.any (fun p => p.1 == "glyphstream") = false)
    (hip : derive_is_personal metadata = Except.ok is_personal)
    (hgs : llm_assign_glyphs env.llm content is_personal = (gs, 1))
    (hne : gs.isEmpty = false)
    (hfail : env.write_attempt note.name (enrich_metadata metadata gs is_personal env.now)
        = WriteAttempt.prepError msg ∨
      env.write_attempt note.name (enrich_metadata metadata gs is_personal env.now)
        = WriteAttempt.openError msg) :
    process_vault env st (note :: rest) =
      process_vault env
        { files := st.files
          log := log_assignment st.log note.name gs "WRITE_FAILED" none
          llm_calls := st.llm_calls + 1 } rest := by
  have hstep : process_vault env st (note :: rest)
      = process_vault env (process_note env st note) rest := rfl
  rw [hstep]
  congr 1
  unfold process_note
  rw [hparse]
  simp only [hkey, hip, hgs, hne]
  rcases hfail with hf | hf <;> rw [hf] <;> rfl

/-- C2, witness: a run in which the only write attempt fails at the
open call records one WRITE_FAILED entry with the attempted glyph and
leaves the note content untouched. -/
theorem C2_witness :
    process_vault
      { llm := fun _ _ => Except.ok "âŸ"
        write_attempt := fun _ _ => WriteAttempt.openError "disk full"
        now := "t" }
      { files := [("a.md", "This body is surely long enough to be classified by the model.")]
        log := []
        llm_calls := 0 }
      [{ name := "a.md"
         parse := Except.ok ([],
           "This body is surely long enough to be classified by the model.") }]
      = { files := [("a.md", "This body is surely long enough to be classified by the model.")]
          log := [{ file := "a.md", action := "WRITE_FAILED", glyphs := ["âŸ"], error := none }]
          llm_calls := 1 } :=
  C2_write_failure_logged_once _ _ _ [] _ [] ["âŸ"] true "disk full"
    rfl rfl rfl (by decide) rfl (Or.inr rfl)
